import Mathlib

/-!
Verification of the CPOL level 1b update scripts.

This file gives a shallow embedding of the repository
(`update_cpol1b/update_cpol1b.py`, `update_cpol1b/reprocess_v2018.py`) and
proves or refutes the frozen claims about it.

Modelling conventions:
* Python dictionaries (`radar.fields`, per-field attribute dicts) are modelled
  extensionally as partial maps `String → Option _`.  No behaviour relevant to
  the claims depends on dict iteration order, so the insertion-ordered nature
  of Python dicts is not tracked.
* Numpy masked arrays are abstracted to their claim-relevant observables:
  dtype, masked-array fill value, and whether `masked_invalid` has been
  applied.  `astype` changes the dtype, `np.ma.set_fill_value` the fill value.
* The filesystem is a record of directory names and file names.  `os.mkdir`
  with its `FileExistsError` handler becomes `mkdirModel`; `os.path.join a b`
  becomes `a ++ "/" ++ b`; `pyart.io.write_cfradial` adds the output path.
* Exceptions that the source catches are modelled by the corresponding
  control flow (matches on `Option`); the single uncaught field access in
  `update_data` is modelled in the `Except` monad.
* The worker-pool driver is modelled by the outcome each work item produces
  (`Outcome`) and by the result-consumption loop over those outcomes.
-/

namespace Cpol

/-- An attribute value as it occurs in the scripts: NaN, an integer sentinel,
or a string. -/
inductive AttrVal
  | nan
  | int (n : Int)
  | str (s : String)
deriving DecidableEq, Repr

/-- Numeric dtype of a field array; only the widths the scripts mention. -/
inductive Dtype
  | f64
  | f32
  | i64
  | i32
deriving DecidableEq, Repr

/-- Claim-relevant observables of a numpy masked array: its dtype, its
masked-array fill value (`np.ma.set_fill_value`), and whether
`np.ma.masked_invalid` has been applied to it. -/
structure ArrData where
  dtype : Dtype
  fill : AttrVal
  maskedInvalid : Bool
deriving DecidableEq, Repr

/-- A per-field dictionary: the data array plus its attribute entries
(`_FillValue`, `_Least_significant_digit`, `standard_name`, ...). -/
structure FieldDict where
  data : ArrData
  attrs : String → Option AttrVal

/-- The `radar.fields` mapping: a partial map from field name to field dictionary. -/
def Fields : Type := String → Option FieldDict

/-- Python dict assignment `d[k] = v`. -/
def upd {α : Type} (f : String → Option α) (k : String) (v : α) :
    String → Option α :=
  fun x => if x = k then some v else f x

/-- Python dict removal `d.pop(k)` (the removal part; presence is tested
separately where the source lets `KeyError` escape or be caught). -/
def del {α : Type} (f : String → Option α) (k : String) : String → Option α :=
  fun x => if x = k then none else f x

/-- Python `datetime` restricted to the components the scripts use. -/
structure PyDate where
  year : Nat
  month : Nat
  day : Nat
  hour : Nat
  minute : Nat
  second : Nat
deriving DecidableEq, Repr

/-- Zero-pad a natural number to two digits, as `strftime` does for
`%m %d %H %M`. -/
def pad2 (n : Nat) : String :=
  if n < 10 then "0" ++ toString n else toString n

/-- Zero-pad a natural number to four digits, as `strftime` does for `%Y`. -/
def pad4 (n : Nat) : String :=
  if n < 10 then "000" ++ toString n
  else if n < 100 then "00" ++ toString n
  else if n < 1000 then "0" ++ toString n
  else toString n

/-- Format `strftime("%Y%m%d")`. -/
def fmtYMD (d : PyDate) : String :=
  pad4 d.year ++ pad2 d.month ++ pad2 d.day

/-- Format `strftime("%H%M")`. -/
def fmtHM (d : PyDate) : String :=
  pad2 d.hour ++ pad2 d.minute

/-- The output file name template
`"twp10cpolppi.b1.{}00.nc".format(strftime("%Y%m%d.%H%M"))`, shared by
`update_data` and `update_dataset`.  The seconds component of the timestamp
is never consulted. -/
def b1FileName (d : PyDate) : String :=
  "twp10cpolppi.b1." ++ fmtYMD d ++ "." ++ fmtHM d ++ "00.nc"

/-- The full output path `update_data` computes:
`os.path.join(os.path.join(os.path.join(OUTPATH, str(year)), daystr), filename)`. -/
def outFilePath (outpath : String) (d : PyDate) : String :=
  outpath ++ "/" ++ toString d.year ++ "/" ++ fmtYMD d ++ "/" ++ b1FileName d

/-- Filesystem state: the set of existing directories and files. -/
structure FS where
  dirs : List String
  files : List String
deriving DecidableEq, Repr

/-- Model of `os.mkdir(d)` wrapped in `try ... except FileExistsError: pass`:
creating an existing directory is a no-op, not an error. -/
def mkdirModel (fs : FS) (d : String) : FS :=
  if d ∈ fs.dirs then fs else { fs with dirs := d :: fs.dirs }

/-- A file write (`pyart.io.write_cfradial`): afterwards the path exists. -/
def writeFile (fs : FS) (p : String) : FS :=
  if p ∈ fs.files then fs else { fs with files := p :: fs.files }

/-- The generator `chunks(l, n)` from `update_cpol1b.py`:
`for i in range(0, len(l), n): yield l[i : i + n]`.
`range(0, len(l), n)` has `⌈len(l)/n⌉` elements for `n > 0`, and
`l[i : i + n]` is `(l.drop i).take n`. -/
def chunks {α : Type} (l : List α) (n : Nat) : List (List α) :=
  (List.range ((l.length + n - 1) / n)).map (fun i => (l.drop (i * n)).take n)

/-- An in-memory radar volume: its observation start timestamp (decoded from
the time coordinate) and its field dictionary. -/
structure Volume where
  startDate : PyDate
  fields : Fields

/-- The obsolete-field denylist `keys_drop` of `update_data`
(`update_cpol1b/update_cpol1b.py` lines 135-140). -/
def keysDrop : List String :=
  ["temperature", "specific_attenuation_reflectivity",
   "specific_attenuation_differential_reflectivity", "velocity_texture"]

/-- Lines 142-145: `klist = list(radar.fields.keys())` is snapshotted, then
every snapshotted key in `keys_drop` is popped.  Pointwise: a key is absent
afterwards iff it is denylisted or was already absent. -/
def dropObsolete (f : Fields) : Fields :=
  fun k => if k ∈ keysDrop then none else f k

/-- Lines 147-159, the reflectivity rename block (one `try`):
`radar.add_field("corrected_reflectivity", radar.fields.pop("reflectivity"))`
followed by `filled(np.NaN)`, `masked_invalid` and `set_fill_value(NaN)` on
the new field.  If `pop` raises `KeyError` (no `reflectivity`) nothing
happens.  If `add_field` raises `ValueError` (a `corrected_reflectivity`
field already exists — pyart checks this before mutating), the pop has
already removed `reflectivity`, and the rest of the block is skipped. -/
def renameReflectivity (f : Fields) : Fields :=
  match f "reflectivity" with
  | none => f
  | some dic =>
    let rest := del f "reflectivity"
    if (rest "corrected_reflectivity").isSome then rest
    else
      upd rest "corrected_reflectivity"
        { dic with data := { dic.data with fill := AttrVal.nan, maskedInvalid := true } }

/-- Lines 161-168, the velocity rename block (one `try`):
`radar.fields["velocity"] = radar.fields.pop("raw_velocity")` then
`radar.add_field("corrected_velocity", radar.fields.pop("region_dealias_velocity"))`.
A `KeyError` on the first pop skips the whole block, so the second rename is
never attempted.  A `KeyError` on the second pop leaves the first rename in
place.  A `ValueError` from `add_field` (existing `corrected_velocity`) loses
the popped `region_dealias_velocity` field. -/
def renameVelocity (f : Fields) : Fields :=
  match f "raw_velocity" with
  | none => f
  | some dic =>
    let f1 := upd (del f "raw_velocity") "velocity" dic
    match f1 "region_dealias_velocity" with
    | none => f1
    | some dic2 =>
      let f2 := del f1 "region_dealias_velocity"
      if (f2 "corrected_velocity").isSome then f2
      else upd f2 "corrected_velocity" dic2

/-- Lines 170-178, the echo-classification block (one `try`): cast the data
array to `np.int32`, set its masked-array fill value to `-9999`, and set the
`_FillValue` attribute to `-9999`.  `KeyError` on an absent field skips the
block. -/
def fixClassification (f : Fields) : Fields :=
  match f "radar_echo_classification" with
  | none => f
  | some dic =>
    upd f "radar_echo_classification"
      { data := { dic.data with dtype := Dtype.i32, fill := AttrVal.int (-9999) },
        attrs := upd dic.attrs "_FillValue" (AttrVal.int (-9999)) }

/-- Lines 182-189, the `NW` block (one `try`): `pop("standard_name")` (a
`KeyError` here, absent field or absent attribute, skips the whole block),
then fill value NaN, `_FillValue` NaN, `_Least_significant_digit` 2, and
`masked_invalid`. -/
def fixNW (f : Fields) : Fields :=
  match f "NW" with
  | none => f
  | some dic =>
    match dic.attrs "standard_name" with
    | none => f
    | some _ =>
      upd f "NW"
        { data := { dic.data with fill := AttrVal.nan, maskedInvalid := true },
          attrs :=
            upd (upd (del dic.attrs "standard_name") "_FillValue" AttrVal.nan)
              "_Least_significant_digit" (AttrVal.int 2) }

/-- The static field-edit table `klist_pr` of `update_data` (lines 191-205):
(field name, `_Least_significant_digit`, fill value). -/
def klistPr : List (String × Nat × AttrVal) :=
  [("D0", 2, AttrVal.nan),
   ("velocity", 2, AttrVal.nan),
   ("total_power", 2, AttrVal.nan),
   ("corrected_reflectivity", 2, AttrVal.nan),
   ("cross_correlation_ratio", 4, AttrVal.nan),
   ("corrected_differential_reflectivity", 4, AttrVal.nan),
   ("corrected_differential_phase", 4, AttrVal.nan),
   ("corrected_specific_differential_phase", 4, AttrVal.nan),
   ("differential_reflectivity", 4, AttrVal.nan),
   ("differential_phase", 4, AttrVal.nan),
   ("spectrum_width", 4, AttrVal.nan),
   ("signal_to_noise_ratio", 2, AttrVal.nan),
   ("corrected_velocity", 2, AttrVal.nan)]

/-- One iteration of the normalization loop (lines 207-217).  `inInput` is
membership in the stale `klist` snapshot taken at line 142 (`if key not in
klist: continue`).  Inside the `try`, a `KeyError` on an absent field is
caught and the loop continues; otherwise the masked-array fill value is set,
the array is cast to `np.float32`, and the two attributes are written. -/
def normalizeEntry (inInput : String → Bool) (f : Fields)
    (e : String × Nat × AttrVal) : Fields :=
  if inInput e.1 then
    match f e.1 with
    | none => f
    | some dic =>
      upd f e.1
        { data := { dic.data with fill := e.2.2, dtype := Dtype.f32 },
          attrs :=
            upd (upd dic.attrs "_Least_significant_digit" (AttrVal.int e.2.1))
              "_FillValue" e.2.2 }
  else f

/-- The whole normalization loop over `klist_pr`. -/
def normalizeFields (inInput : String → Bool) (f : Fields) : Fields :=
  klistPr.foldl (normalizeEntry inInput) f

/-- Lines 219-226: strip the per-field attributes `grid_mapping`,
`coordinates` and `sampling_ratio` from every field, ignoring absence. -/
def stripBadAttrs (f : Fields) : Fields :=
  fun k =>
    (f k).map fun dic =>
      { dic with
        attrs := del (del (del dic.attrs "grid_mapping") "coordinates") "sampling_ratio" }

/-- Composition of the drop and rename blocks and the classification fix
(lines 134-178), in source order. -/
def renamePipeline (f0 : Fields) : Fields :=
  fixClassification (renameVelocity (renameReflectivity (dropObsolete f0)))

/-- The field-editing part of `update_data` (lines 134-226) as one pipeline.
Every block is best-effort except line 180,
`radar.fields["radar_estimated_rain_rate"]["_Least_significant_digit"] = 2`,
whose `KeyError` on an absent field is not caught and propagates. -/
def editFields (f0 : Fields) : Except String Fields :=
  match renamePipeline f0 "radar_estimated_rain_rate" with
  | none => Except.error "KeyError: radar_estimated_rain_rate"
  | some dic =>
    Except.ok (stripBadAttrs (normalizeFields (fun k => (f0 k).isSome)
      (fixNW (upd (renamePipeline f0) "radar_estimated_rain_rate"
        { dic with attrs := upd dic.attrs "_Least_significant_digit" (AttrVal.int 2) }))))

/-- The companion level 1a path computed at lines 120-124. -/
def auxPath (d : PyDate) : String :=
  "/g/data/hj10/cpol_level_1a/v2019/ppi/" ++ pad4 d.year ++ "/" ++ fmtYMD d ++
    "/twp10cpolppi.a1." ++ fmtYMD d ++ "." ++ fmtHM d ++ "00.nc"

/-- The hardcoded fallback companion path (line 127). -/
def auxFallback : String :=
  "/g/data/hj10/cpol_level_1a/v2019/ppi/2017/20170304/twp10cpolppi.a1.20170304.000000.nc"

/-- The observable outcome of one successful `update_data` call. -/
structure UpdateResult where
  fs : FS
  outVol : Volume
  writes : List String
  auxRead : String

/-- Model of `update_data(infile)` (`update_cpol1b/update_cpol1b.py` lines 88-229),
given the already-loaded volume.  It derives the timestamp strings, creates
the year and day directories (tolerating pre-existing ones), computes the
output path, picks the companion file (falling back to the hardcoded path
when the expected one is missing), runs the field edits, and writes the
output unconditionally — there is no check whether the output path already
exists.  The uncaught `KeyError` of line 180 propagates, carrying the
filesystem as mutated so far (the directories stay created). -/
def updateData (outpath : String) (fs : FS) (radar : Volume) :
    Except (String × FS) UpdateResult :=
  let d := radar.startDate
  let daystr := fmtYMD d
  let filename := b1FileName d
  let outdir := outpath ++ "/" ++ toString d.year
  let fs1 := mkdirModel fs outdir
  let outdirDay := outdir ++ "/" ++ daystr
  let fs2 := mkdirModel fs1 outdirDay
  let outfilename := outdirDay ++ "/" ++ filename
  let fone := auxPath d
  let aux := if fone ∈ fs2.files then fone else auxFallback
  match editFields radar.fields with
  | Except.error e => Except.error (e, fs2)
  | Except.ok f =>
    Except.ok
      { fs := writeFile fs2 outfilename,
        outVol := { startDate := d, fields := f },
        writes := [outfilename],
        auxRead := aux }

/-- Structural recursion companion to `chunks`, used for proofs:
take 16, recurse on the rest. -/
def chunksRec {α : Type} (m : Nat) (l : List α) : List (List α) :=
  if l.isEmpty then []
  else l.take (m + 1) :: chunksRec m (l.drop (m + 1))
termination_by l.length
decreasing_by
  simp only [List.length_drop]
  cases l with
  | nil => simp at *
  | cons a as => simp; omega

/-- The outcome the driver observes for one submitted work item, as
classified by the `except` arms of `main` (lines 266-276): normal return,
`TimeoutError`, `ProcessExpired`, or any other exception. -/
inductive Outcome
  | ok
  | timedOut (secs : Nat)
  | expired (exitcode : Int)
  | failed (msg : String)
deriving DecidableEq, Repr

/-- The console line(s) one outcome produces in the result loop. -/
def itemLog : Outcome → List String
  | Outcome.ok => []
  | Outcome.timedOut s => ["function took longer than " ++ toString s ++ " seconds"]
  | Outcome.expired c => ["Exit code: " ++ toString c]
  | Outcome.failed m => ["function raised " ++ m]

/-- The result-consumption loop of `main` (lines 266-276): `next(iterator)`
until `StopIteration` breaks the loop; a successful result is discarded; a
`TimeoutError`, `ProcessExpired` or any other exception is logged and the
loop continues with the next item. -/
def consumeLoop : List Outcome → List String
  | [] => []
  | Outcome.ok :: rest => consumeLoop rest
  | Outcome.timedOut s :: rest =>
    ("function took longer than " ++ toString s ++ " seconds") :: consumeLoop rest
  | Outcome.expired c :: rest =>
    ("Exit code: " ++ toString c) :: consumeLoop rest
  | Outcome.failed m :: rest =>
    ("function raised " ++ m) :: consumeLoop rest

/-- Model of `main()` of `update_cpol1b/update_cpol1b.py` (lines 253-278), abstracted
over the result of the recursive glob (`files`) and over the outcome each
work item produces in its worker (`run`).  The sorted list is chunked by 16;
each chunk is submitted to a fresh pool and its results are consumed in
submission order; the collected console lines are returned.  On an empty
enumeration a `FileNotFoundError` is raised before any chunking. -/
def driverMain (files : List String) (run : String → Outcome) :
    Except String (List String) :=
  let flist := files.mergeSort (fun a b => decide (a ≤ b))
  if flist.length = 0 then Except.error "No file found"
  else
    Except.ok
      (((chunks flist 16).map (fun ch => consumeLoop (ch.map run))).flatten)

/-- The `good_keys()` keep-list of `reprocess_v2018.py` (lines 26-71). -/
def goodKeys : List String :=
  ["time", "range", "azimuth", "elevation", "radar_echo_classification",
   "radar_estimated_rain_rate", "velocity", "total_power", "reflectivity",
   "cross_correlation_ratio", "differential_reflectivity",
   "corrected_differential_reflectivity", "differential_phase",
   "corrected_differential_phase", "corrected_specific_differential_phase",
   "spectrum_width", "signal_to_noise_ratio", "sweep_number", "fixed_angle",
   "sweep_start_ray_index", "sweep_end_ray_index", "sweep_mode", "prt_mode",
   "prt", "nyquist_velocity", "unambiguous_range", "radar_beam_width_h",
   "radar_beam_width_v", "latitude", "longitude", "altitude",
   "time_coverage_start", "time_coverage_end", "time_reference",
   "volume_number", "platform_type", "instrument_type", "primary_axis"]

/-- An `xarray` dataset as `update_dataset` consumes it: its variable names,
its global string attributes, and the decoded start timestamp. -/
structure Dset where
  varNames : List String
  attrs : String → Option String
  startDate : PyDate

/-- Model of `update_dataset(radar_file, path)` of `reprocess_v2018.py`
(lines 224-278), given the already-opened dataset.  `writeNC` abstracts
`dset.to_netcdf` together with the disk: the function does not assume the
write materialises the file, because the source re-checks
`os.path.exists(outfilename)` afterwards and returns `None` when the check
fails.  Returns the new filesystem, the return value (the input path, or
`None`), and the list of variables kept by the drop loop (empty when the
unit of work was skipped).  Missing `product_version`/`created` attributes
raise an uncaught `KeyError`. -/
def updateDataset (writeNC : FS → String → FS) (fs : FS)
    (radarFile path : String) (dset : Dset) :
    Except String (FS × Option String × List String) :=
  let fname := b1FileName dset.startDate
  let outfilename := path ++ "/" ++ fname
  if outfilename ∈ fs.files then Except.ok (fs, none, [])
  else
    let keptVars := dset.varNames.filter (fun k => k ∈ goodKeys)
    match dset.attrs "product_version", dset.attrs "created" with
    | some _, some _ =>
      let fs2 := writeNC fs outfilename
      if outfilename ∈ fs2.files then Except.ok (fs2, some radarFile, keptVars)
      else Except.ok (fs2, none, keptVars)
    | _, _ => Except.error "KeyError"

/-- Model of `remove(flist)` of `reprocess_v2018.py` (lines 180-196): skip `None`
entries, `os.remove` the rest, tolerating `FileNotFoundError`
(`List.erase` of an absent path is a no-op). -/
def removeFiles (fs : FS) (rslt : List (Option String)) : FS :=
  rslt.foldl
    (fun acc o =>
      match o with
      | none => acc
      | some f => { acc with files := acc.files.erase f })
    fs

/-! ### Concrete instances used by counterexamples and witnesses -/

/-- A plain float64 data array with NaN fill, not yet masked-invalid. -/
def baseArr : ArrData := { dtype := Dtype.f64, fill := AttrVal.nan, maskedInvalid := false }

/-- A field dictionary with no attributes. -/
def baseDict : FieldDict := { data := baseArr, attrs := fun _ => none }

/-- The empty field mapping. -/
def emptyFields : Fields := fun _ => none

/-- A concrete input volume: it carries `radar_estimated_rain_rate`, `D0`,
`radar_echo_classification` and `region_dealias_velocity`, and lacks
`raw_velocity` and `reflectivity`. -/
def cFields : Fields :=
  upd (upd (upd (upd emptyFields "radar_estimated_rain_rate" baseDict)
    "D0" baseDict) "radar_echo_classification" baseDict)
    "region_dealias_velocity" baseDict

/-- The observation start timestamp 2017-03-04T00:00:06Z. -/
def cDate : PyDate := { year := 2017, month := 3, day := 4, hour := 0, minute := 0, second := 6 }

/-- The concrete volume. -/
def cVol : Volume := { startDate := cDate, fields := cFields }

/-- The output path the concrete volume resolves to under root `out`. -/
def cOut : String := "out/2017/20170304/twp10cpolppi.b1.20170304.000000.nc"

/-- A filesystem on which the output of `cVol` already exists. -/
def cFS : FS :=
  { dirs := ["out", "out/2017", "out/2017/20170304"], files := [cOut] }

/-- Default used only to extract the concrete run below. -/
def junkResult : UpdateResult :=
  { fs := { dirs := [], files := [] },
    outVol := { startDate := { year := 0, month := 0, day := 0, hour := 0, minute := 0, second := 0 },
                fields := emptyFields },
    writes := [], auxRead := "" }

/-- The concrete successful run of `update_data` on `cVol` over `cFS`. -/
def cRun : UpdateResult := ((updateData "out" cFS cVol).toOption).getD junkResult

/-- A concrete volume lacking `radar_estimated_rain_rate`. -/
def cVolNoRain : Volume := { startDate := cDate, fields := upd emptyFields "D0" baseDict }

/-- A concrete v2018 dataset with the attributes `update_dataset` reads. -/
def cDset : Dset :=
  { varNames := ["time", "velocity", "temperature"],
    attrs := fun k => if k = "product_version" then some "2018"
             else if k = "created" then some "2018-01-01" else none,
    startDate := cDate }

/-- A filesystem on which the v2018 output of `cDset` under directory `tmp`
already exists. -/
def v2018FS : FS := { dirs := [], files := ["tmp/twp10cpolppi.b1.20170304.000000.nc"] }

/-- A list of 17 distinct file names. -/
def cL17 : List String := (List.range 17).map toString

/-! ### Helper lemmas about map updates -/

@[simp] theorem upd_same {α : Type} (f : String → Option α) (k : String)
    (v : α) : upd f k v k = some v := by
  simp [upd]

@[simp] theorem upd_ne {α : Type} (f : String → Option α) (k x : String)
    (v : α) (h : x ≠ k) : upd f k v x = f x := by
  simp [upd, h]

@[simp] theorem del_same {α : Type} (f : String → Option α) (k : String) :
    del f k k = none := by
  simp [del]

@[simp] theorem del_ne {α : Type} (f : String → Option α) (k x : String)
    (h : x ≠ k) : del f k x = f x := by
  simp [del, h]

/-! ### Helper lemmas about `chunks` -/

theorem chunksRec_nil {α : Type} (m : Nat) : chunksRec m ([] : List α) = [] := by
  rw [chunksRec]
  rfl

theorem chunksRec_cons {α : Type} (m : Nat) (a : α) (as : List α) :
    chunksRec m (a :: as)
      = (a :: as).take (m + 1) :: chunksRec m ((a :: as).drop (m + 1)) := by
  rw [chunksRec]
  rfl

theorem chunksRec_eq_nil_iff {α : Type} (m : Nat) (l : List α) :
    chunksRec m l = [] ↔ l = [] := by
  cases l with
  | nil => simp [chunksRec_nil]
  | cons a as => simp [chunksRec_cons]

theorem chunks16_eq {α : Type} (l : List α) : chunks l 16 = chunksRec 15 l := by
  generalize hn : l.length = n
  induction n using Nat.strong_induction_on generalizing l with
  | _ n ih =>
  cases l with
  | nil =>
    rw [chunksRec_nil]
    simp [chunks]
  | cons a as =>
    rw [chunksRec_cons]
    have hd : ((a :: as).drop 16).length < n := by
      simp only [List.length_drop, List.length_cons] at hn ⊢
      omega
    have ihd := ih ((a :: as).drop 16).length hd ((a :: as).drop 16) rfl
    unfold chunks at ihd ⊢
    have h1 : ((a :: as).length + 16 - 1) / 16
        = (((a :: as).drop 16).length + 16 - 1) / 16 + 1 := by
      simp only [List.length_drop, List.length_cons]
      omega
    rw [h1, List.range_succ_eq_map, List.map_cons, List.map_map]
    rw [← ihd]
    congr 1
    apply List.map_congr_left
    intro i _
    simp only [Function.comp_apply, List.drop_drop]
    congr 2
    omega

theorem chunksRec_flatten {α : Type} (m : Nat) (l : List α) :
    (chunksRec m l).flatten = l := by
  generalize hn : l.length = n
  induction n using Nat.strong_induction_on generalizing l with
  | _ n ih =>
  cases l with
  | nil =>
    rw [chunksRec_nil]
    rfl
  | cons a as =>
    rw [chunksRec_cons, List.flatten_cons]
    rw [ih ((a :: as).drop (m + 1)).length
      (by simp only [List.length_drop, List.length_cons] at hn ⊢; omega)
      ((a :: as).drop (m + 1)) rfl]
    exact List.take_append_drop _ _

theorem chunksRec_mem_length {α : Type} (m : Nat) (l : List α) :
    ∀ c ∈ chunksRec m l, c.length ≤ m + 1 ∧ c ≠ [] := by
  generalize hn : l.length = n
  induction n using Nat.strong_induction_on generalizing l with
  | _ n ih =>
  cases l with
  | nil =>
    rw [chunksRec_nil]
    simp
  | cons a as =>
    rw [chunksRec_cons]
    intro c hc
    rcases List.mem_cons.mp hc with rfl | hc2
    · constructor
      · simp only [List.length_take]
        omega
      · simp
    · exact ih ((a :: as).drop (m + 1)).length
        (by simp only [List.length_drop, List.length_cons] at hn ⊢; omega)
        ((a :: as).drop (m + 1)) rfl c hc2

theorem chunksRec_dropLast_length {α : Type} (m : Nat) (l : List α) :
    ∀ c ∈ (chunksRec m l).dropLast, c.length = m + 1 := by
  generalize hn : l.length = n
  induction n using Nat.strong_induction_on generalizing l with
  | _ n ih =>
  cases l with
  | nil =>
    rw [chunksRec_nil]
    simp
  | cons a as =>
    rw [chunksRec_cons]
    by_cases hrest : chunksRec m ((a :: as).drop (m + 1)) = []
    · rw [hrest]
      simp
    · rw [List.dropLast_cons_of_ne_nil hrest]
      intro c hc
      rcases List.mem_cons.mp hc with rfl | hc2
      · have hne : (a :: as).drop (m + 1) ≠ [] :=
          fun h => hrest (by rw [h, chunksRec_nil])
        have hlt : m + 1 < (a :: as).length := by
          by_contra hcon
          exact hne (List.drop_eq_nil_of_le (by omega))
        simp only [List.length_take]
        omega
      · exact ih ((a :: as).drop (m + 1)).length
          (by simp only [List.length_drop, List.length_cons] at hn ⊢; omega)
          ((a :: as).drop (m + 1)) rfl c hc2

/-! ### Helper lemmas about the field-edit blocks -/

theorem renameReflectivity_ne (f : Fields) (k : String)
    (h1 : k ≠ "reflectivity") (h2 : k ≠ "corrected_reflectivity") :
    renameReflectivity f k = f k := by
  unfold renameReflectivity
  cases hr : f "reflectivity" with
  | none => rfl
  | some dic =>
    dsimp only
    split
    · exact del_ne _ _ _ h1
    · rw [upd_ne _ _ _ _ h2, del_ne _ _ _ h1]

theorem renameReflectivity_corr (f : Fields)
    (h : (f "corrected_reflectivity").isSome = true) :
    renameReflectivity f "corrected_reflectivity" = f "corrected_reflectivity" := by
  unfold renameReflectivity
  cases hr : f "reflectivity" with
  | none => rfl
  | some dic =>
    dsimp only
    rw [del_ne _ _ _ (show ("corrected_reflectivity" : String) ≠ "reflectivity" by decide),
      if_pos h]
    exact del_ne _ _ _ (by decide)

theorem renameVelocity_ne (f : Fields) (k : String)
    (h1 : k ≠ "raw_velocity") (h2 : k ≠ "velocity")
    (h3 : k ≠ "region_dealias_velocity") (h4 : k ≠ "corrected_velocity") :
    renameVelocity f k = f k := by
  unfold renameVelocity
  cases hr : f "raw_velocity" with
  | none => rfl
  | some dic =>
    dsimp only
    rw [upd_ne _ _ _ _ (show ("region_dealias_velocity" : String) ≠ "velocity" by decide),
      del_ne _ _ _ (show ("region_dealias_velocity" : String) ≠ "raw_velocity" by decide)]
    cases hg : f "region_dealias_velocity" with
    | none =>
      dsimp only
      rw [upd_ne _ _ _ _ h2, del_ne _ _ _ h1]
    | some dic2 =>
      dsimp only
      rw [del_ne _ _ _ (show ("corrected_velocity" : String) ≠ "region_dealias_velocity" by decide),
        upd_ne _ _ _ _ (show ("corrected_velocity" : String) ≠ "velocity" by decide),
        del_ne _ _ _ (show ("corrected_velocity" : String) ≠ "raw_velocity" by decide)]
      split
      · rw [del_ne _ _ _ h3, upd_ne _ _ _ _ h2, del_ne _ _ _ h1]
      · rw [upd_ne _ _ _ _ h4, del_ne _ _ _ h3, upd_ne _ _ _ _ h2, del_ne _ _ _ h1]

theorem renameVelocity_velocity_isSome (f : Fields)
    (h : (f "velocity").isSome = true) :
    ((renameVelocity f) "velocity").isSome = true := by
  unfold renameVelocity
  cases hr : f "raw_velocity" with
  | none => exact h
  | some dic =>
    dsimp only
    rw [upd_ne _ _ _ _ (show ("region_dealias_velocity" : String) ≠ "velocity" by decide),
      del_ne _ _ _ (show ("region_dealias_velocity" : String) ≠ "raw_velocity" by decide)]
    cases hg : f "region_dealias_velocity" with
    | none =>
      dsimp only
      simp
    | some dic2 =>
      dsimp only
      rw [del_ne _ _ _ (show ("corrected_velocity" : String) ≠ "region_dealias_velocity" by decide),
        upd_ne _ _ _ _ (show ("corrected_velocity" : String) ≠ "velocity" by decide),
        del_ne _ _ _ (show ("corrected_velocity" : String) ≠ "raw_velocity" by decide)]
      split
      · rw [del_ne _ _ _ (show ("velocity" : String) ≠ "region_dealias_velocity" by decide)]
        simp
      · rw [upd_ne _ _ _ _ (show ("velocity" : String) ≠ "corrected_velocity" by decide),
          del_ne _ _ _ (show ("velocity" : String) ≠ "region_dealias_velocity" by decide)]
        simp

theorem renameVelocity_corr (f : Fields)
    (h : (f "corrected_velocity").isSome = true) :
    renameVelocity f "corrected_velocity" = f "corrected_velocity" := by
  unfold renameVelocity
  cases hr : f "raw_velocity" with
  | none => rfl
  | some dic =>
    dsimp only
    rw [upd_ne _ _ _ _ (show ("region_dealias_velocity" : String) ≠ "velocity" by decide),
      del_ne _ _ _ (show ("region_dealias_velocity" : String) ≠ "raw_velocity" by decide)]
    cases hg : f "region_dealias_velocity" with
    | none =>
      dsimp only
      rw [upd_ne _ _ _ _ (show ("corrected_velocity" : String) ≠ "velocity" by decide),
        del_ne _ _ _ (show ("corrected_velocity" : String) ≠ "raw_velocity" by decide)]
    | some dic2 =>
      dsimp only
      rw [del_ne _ _ _ (show ("corrected_velocity" : String) ≠ "region_dealias_velocity" by decide),
        upd_ne _ _ _ _ (show ("corrected_velocity" : String) ≠ "velocity" by decide),
        del_ne _ _ _ (show ("corrected_velocity" : String) ≠ "raw_velocity" by decide),
        if_pos h]
      rw [del_ne _ _ _ (show ("corrected_velocity" : String) ≠ "region_dealias_velocity" by decide),
        upd_ne _ _ _ _ (show ("corrected_velocity" : String) ≠ "velocity" by decide),
        del_ne _ _ _ (show ("corrected_velocity" : String) ≠ "raw_velocity" by decide)]

theorem fixClassification_ne (f : Fields) (k : String)
    (h : k ≠ "radar_echo_classification") : fixClassification f k = f k := by
  unfold fixClassification
  cases hr : f "radar_echo_classification" with
  | none => rfl
  | some dic =>
    dsimp only
    exact upd_ne _ _ _ _ h

theorem fixClassification_spec (f : Fields) (dic : FieldDict)
    (h : f "radar_echo_classification" = some dic) :
    fixClassification f "radar_echo_classification"
      = some { data := { dic.data with dtype := Dtype.i32, fill := AttrVal.int (-9999) },
               attrs := upd dic.attrs "_FillValue" (AttrVal.int (-9999)) } := by
  unfold fixClassification
  rw [h]
  dsimp only
  exact upd_same _ _ _

theorem fixNW_ne (f : Fields) (k : String) (h : k ≠ "NW") : fixNW f k = f k := by
  unfold fixNW
  cases hr : f "NW" with
  | none => rfl
  | some dic =>
    dsimp only
    cases hs : dic.attrs "standard_name" with
    | none => rfl
    | some v =>
      dsimp only
      exact upd_ne _ _ _ _ h

theorem fixNW_isSome (f : Fields) (k : String) (h : (f k).isSome = true) :
    ((fixNW f) k).isSome = true := by
  unfold fixNW
  cases hr : f "NW" with
  | none => exact h
  | some dic =>
    dsimp only
    cases hs : dic.attrs "standard_name" with
    | none => exact h
    | some v =>
      dsimp only
      by_cases hk : k = "NW"
      · subst hk
        simp
      · rw [upd_ne _ _ _ _ hk]
        exact h

theorem upd_isSome {α : Type} (f : String → Option α) (k x : String) (v : α)
    (h : (f x).isSome = true) : ((upd f k v) x).isSome = true := by
  by_cases hx : x = k
  · subst hx
    simp
  · rw [upd_ne _ _ _ _ hx]
    exact h

/-! ### Helper lemmas about the normalization loop -/

theorem normalizeEntry_ne (inB : String → Bool) (f : Fields)
    (e : String × Nat × AttrVal) (k : String) (h : k ≠ e.1) :
    normalizeEntry inB f e k = f k := by
  unfold normalizeEntry
  by_cases hb : inB e.1
  · rw [if_pos hb]
    cases hf : f e.1 with
    | none => rfl
    | some dic =>
      dsimp only
      exact upd_ne _ _ _ _ h
  · rw [if_neg hb]

theorem normAux_ne (inB : String → Bool) (es : List (String × Nat × AttrVal))
    (f : Fields) (k : String) (h : ∀ e ∈ es, e.1 ≠ k) :
    es.foldl (normalizeEntry inB) f k = f k := by
  induction es generalizing f with
  | nil => rfl
  | cons e rest ih =>
    rw [List.foldl_cons, ih _ (fun x hx => h x (List.mem_cons_of_mem e hx))]
    exact normalizeEntry_ne inB f e k (fun hk => h e (List.mem_cons_self e rest) hk.symm)

theorem normalizeEntry_none (inB : String → Bool) (f : Fields)
    (e : String × Nat × AttrVal) (k : String) (h : f k = none) :
    normalizeEntry inB f e k = none := by
  by_cases hk : k = e.1
  · unfold normalizeEntry
    by_cases hb : inB e.1
    · rw [if_pos hb]
      cases hf : f e.1 with
      | none => exact h
      | some dic =>
        rw [hk] at h
        rw [h] at hf
        cases hf
    · rw [if_neg hb]
      exact h
  · rw [normalizeEntry_ne inB f e k hk]
    exact h

theorem normAux_none (inB : String → Bool) (es : List (String × Nat × AttrVal))
    (f : Fields) (k : String) (h : f k = none) :
    es.foldl (normalizeEntry inB) f k = none := by
  induction es generalizing f with
  | nil => exact h
  | cons e rest ih =>
    rw [List.foldl_cons]
    exact ih _ (normalizeEntry_none inB f e k h)

theorem normAux_mem (inB : String → Bool) (es : List (String × Nat × AttrVal))
    (f : Fields) (k : String) (lsd : Nat) (fv : AttrVal)
    (hmem : (k, lsd, fv) ∈ es) (hnd : (es.map (fun e => e.1)).Nodup)
    (hin : inB k = true) (hsome : (f k).isSome = true) :
    ∃ d, es.foldl (normalizeEntry inB) f k = some d ∧
      d.data.dtype = Dtype.f32 ∧ d.data.fill = fv ∧
      d.attrs "_FillValue" = some fv ∧
      d.attrs "_Least_significant_digit" = some (AttrVal.int lsd) := by
  induction es generalizing f with
  | nil => exact absurd hmem (List.not_mem_nil _)
  | cons e rest ih =>
    rw [List.map_cons, List.nodup_cons] at hnd
    rcases List.mem_cons.mp hmem with heq | hrest
    · obtain ⟨dic, hdic⟩ := Option.isSome_iff_exists.mp hsome
      have hstep : normalizeEntry inB f e
          = upd f k
            { data := { dic.data with fill := fv, dtype := Dtype.f32 },
              attrs :=
                upd (upd dic.attrs "_Least_significant_digit" (AttrVal.int lsd))
                  "_FillValue" fv } := by
        rw [← heq]
        unfold normalizeEntry
        dsimp only
        rw [if_pos hin, hdic]
      have hrest2 : ∀ x ∈ rest, x.1 ≠ k := by
        intro x hx hkx
        apply hnd.1
        rw [← heq]
        dsimp only
        exact hkx ▸ List.mem_map_of_mem (fun y => y.1) hx
      rw [List.foldl_cons, hstep, normAux_ne inB rest _ k hrest2, upd_same]
      refine ⟨_, rfl, rfl, rfl, ?_, ?_⟩
      · show (upd (upd dic.attrs "_Least_significant_digit" (AttrVal.int lsd))
            "_FillValue" fv) "_FillValue" = some fv
        exact upd_same _ _ _
      · show (upd (upd dic.attrs "_Least_significant_digit" (AttrVal.int lsd))
            "_FillValue" fv) "_Least_significant_digit" = some (AttrVal.int lsd)
        rw [upd_ne _ _ _ _ (by decide), upd_same]
    · have hne : k ≠ e.1 := by
        intro hk
        apply hnd.1
        exact hk ▸ List.mem_map_of_mem (fun y => y.1) hrest
      rw [List.foldl_cons]
      refine ih _ hrest hnd.2 ?_
      rw [normalizeEntry_ne inB f e k hne]
      exact hsome

/-! ### Lemmas about the whole pipeline -/

theorem stripBadAttrs_eq (f : Fields) (k : String) :
    stripBadAttrs f k
      = (f k).map (fun dic =>
          { dic with
            attrs := del (del (del dic.attrs "grid_mapping") "coordinates")
              "sampling_ratio" }) := rfl

theorem writeFile_dirs (fs : FS) (p : String) : (writeFile fs p).dirs = fs.dirs := by
  unfold writeFile
  split <;> rfl

theorem mkdirModel_mem (fs : FS) (d : String) : d ∈ (mkdirModel fs d).dirs := by
  unfold mkdirModel
  split
  · assumption
  · exact List.mem_cons_self _ _

theorem mkdirModel_mono (fs : FS) (d e : String) (h : e ∈ fs.dirs) :
    e ∈ (mkdirModel fs d).dirs := by
  unfold mkdirModel
  split
  · exact h
  · exact List.mem_cons_of_mem _ h

theorem updateData_ok_inv (outpath : String) (fs : FS) (radar : Volume)
    (r : UpdateResult) (h : updateData outpath fs radar = Except.ok r) :
    editFields radar.fields = Except.ok r.outVol.fields ∧
    r.writes = [outFilePath outpath radar.startDate] ∧
    r.fs = writeFile
      (mkdirModel
        (mkdirModel fs (outpath ++ "/" ++ toString radar.startDate.year))
        (outpath ++ "/" ++ toString radar.startDate.year ++ "/" ++ fmtYMD radar.startDate))
      (outFilePath outpath radar.startDate) := by
  unfold updateData at h
  cases he : editFields radar.fields with
  | error e =>
    rw [he] at h
    exact absurd h (by simp)
  | ok f =>
    rw [he] at h
    injection h with h2
    subst h2
    exact ⟨rfl, rfl, rfl⟩

theorem fixClassification_isSome (f : Fields) (k : String)
    (h : (f k).isSome = true) : ((fixClassification f) k).isSome = true := by
  by_cases hcl : k = "radar_echo_classification"
  · subst hcl
    unfold fixClassification
    cases hx : f "radar_echo_classification" with
    | none => exact h
    | some dic =>
      dsimp only
      simp
  · rw [fixClassification_ne _ _ hcl]
    exact h

theorem renamePipeline_table_key (f0 : Fields) (k : String)
    (hkd : k ∉ keysDrop) (h1 : k ≠ "reflectivity") (h2 : k ≠ "raw_velocity")
    (h3 : k ≠ "region_dealias_velocity")
    (hsome : (f0 k).isSome = true) :
    ((renamePipeline f0) k).isSome = true := by
  unfold renamePipeline
  have hD : (dropObsolete f0) k = f0 k := by
    unfold dropObsolete
    rw [if_neg hkd]
  have hR : ((renameReflectivity (dropObsolete f0)) k).isSome = true := by
    by_cases hc : k = "corrected_reflectivity"
    · subst hc
      rw [renameReflectivity_corr _ (by rw [hD]; exact hsome), hD]
      exact hsome
    · rw [renameReflectivity_ne _ _ h1 hc, hD]
      exact hsome
  have hV : ((renameVelocity (renameReflectivity (dropObsolete f0))) k).isSome = true := by
    by_cases hv : k = "velocity"
    · subst hv
      exact renameVelocity_velocity_isSome _ hR
    · by_cases hcv : k = "corrected_velocity"
      · subst hcv
        rw [renameVelocity_corr _ hR]
        exact hR
      · rw [renameVelocity_ne _ _ h2 hv h3 hcv]
        exact hR
  exact fixClassification_isSome _ _ hV

theorem editFields_table (f0 g : Fields) (hok : editFields f0 = Except.ok g)
    (k : String) (lsd : Nat) (fv : AttrVal)
    (hmem : (k, lsd, fv) ∈ klistPr) (hsome : (f0 k).isSome = true) :
    ∃ d, g k = some d ∧ d.data.dtype = Dtype.f32 ∧ d.data.fill = fv ∧
      d.attrs "_FillValue" = some fv ∧
      d.attrs "_Least_significant_digit" = some (AttrVal.int lsd) := by
  have hkey : k ∈ klistPr.map (fun e => e.1) := List.mem_map_of_mem _ hmem
  have hkd : k ∉ keysDrop := fun hc =>
    (by decide : ∀ x ∈ klistPr.map (fun e => e.1), x ∉ keysDrop) k hkey hc
  have h1 : k ≠ "reflectivity" :=
    (by decide : ∀ x ∈ klistPr.map (fun e => e.1), x ≠ "reflectivity") k hkey
  have h2 : k ≠ "raw_velocity" :=
    (by decide : ∀ x ∈ klistPr.map (fun e => e.1), x ≠ "raw_velocity") k hkey
  have h3 : k ≠ "region_dealias_velocity" :=
    (by decide : ∀ x ∈ klistPr.map (fun e => e.1), x ≠ "region_dealias_velocity") k hkey
  unfold editFields at hok
  cases hm : renamePipeline f0 "radar_estimated_rain_rate" with
  | none =>
    rw [hm] at hok
    cases hok
  | some dic =>
    rw [hm] at hok
    dsimp only at hok
    injection hok with hg
    have hp : ((renamePipeline f0) k).isSome = true :=
      renamePipeline_table_key f0 k hkd h1 h2 h3 hsome
    have hp5 : ((upd (renamePipeline f0) "radar_estimated_rain_rate"
        { dic with attrs := upd dic.attrs "_Least_significant_digit" (AttrVal.int 2) })
          k).isSome = true :=
      upd_isSome _ _ _ _ hp
    have hp6 : ((fixNW (upd (renamePipeline f0) "radar_estimated_rain_rate"
        { dic with attrs := upd dic.attrs "_Least_significant_digit" (AttrVal.int 2) }))
          k).isSome = true :=
      fixNW_isSome _ _ hp5
    have hnodup : (klistPr.map (fun e => e.1)).Nodup := by decide
    obtain ⟨d, hd, hdt, hdf, hfv, hlsd⟩ :=
      normAux_mem (fun x => (f0 x).isSome) klistPr
        (fixNW (upd (renamePipeline f0) "radar_estimated_rain_rate"
          { dic with attrs := upd dic.attrs "_Least_significant_digit" (AttrVal.int 2) }))
        k lsd fv hmem hnodup hsome hp6
    refine ⟨{ d with
              attrs := del (del (del d.attrs "grid_mapping") "coordinates")
                "sampling_ratio" },
      ?_, hdt, hdf, ?_, ?_⟩
    · rw [← hg, stripBadAttrs_eq]
      show ((klistPr.foldl (normalizeEntry (fun x => (f0 x).isSome))
          (fixNW (upd (renamePipeline f0) "radar_estimated_rain_rate"
            { dic with attrs := upd dic.attrs "_Least_significant_digit" (AttrVal.int 2) })))
          k).map _ = _
      rw [hd]
      rfl
    · show (del (del (del d.attrs "grid_mapping") "coordinates") "sampling_ratio")
          "_FillValue" = some fv
      rw [del_ne _ _ _ (by decide), del_ne _ _ _ (by decide), del_ne _ _ _ (by decide)]
      exact hfv
    · show (del (del (del d.attrs "grid_mapping") "coordinates") "sampling_ratio")
          "_Least_significant_digit" = some (AttrVal.int lsd)
      rw [del_ne _ _ _ (by decide), del_ne _ _ _ (by decide), del_ne _ _ _ (by decide)]
      exact hlsd

theorem editFields_classification (f0 g : Fields) (hok : editFields f0 = Except.ok g)
    (hsome : (f0 "radar_echo_classification").isSome = true) :
    ∃ d, g "radar_echo_classification" = some d ∧ d.data.dtype = Dtype.i32 ∧
      d.data.fill = AttrVal.int (-9999) ∧
      d.attrs "_FillValue" = some (AttrVal.int (-9999)) := by
  unfold editFields at hok
  cases hm : renamePipeline f0 "radar_estimated_rain_rate" with
  | none =>
    rw [hm] at hok
    cases hok
  | some dic =>
    rw [hm] at hok
    dsimp only at hok
    injection hok with hg
    have hpre : ((renameVelocity (renameReflectivity (dropObsolete f0)))
        "radar_echo_classification").isSome = true := by
      rw [renameVelocity_ne _ _ (by decide) (by decide) (by decide) (by decide),
        renameReflectivity_ne _ _ (by decide) (by decide)]
      show ((dropObsolete f0) "radar_echo_classification").isSome = true
      unfold dropObsolete
      rw [if_neg (by decide)]
      exact hsome
    obtain ⟨dic0, hdic0⟩ := Option.isSome_iff_exists.mp hpre
    have hcl : (renamePipeline f0) "radar_echo_classification"
        = some { data := { dic0.data with dtype := Dtype.i32, fill := AttrVal.int (-9999) },
                 attrs := upd dic0.attrs "_FillValue" (AttrVal.int (-9999)) } := by
      unfold renamePipeline
      exact fixClassification_spec _ dic0 hdic0
    have h5 : (upd (renamePipeline f0) "radar_estimated_rain_rate"
        { dic with attrs := upd dic.attrs "_Least_significant_digit" (AttrVal.int 2) })
          "radar_echo_classification"
        = some { data := { dic0.data with dtype := Dtype.i32, fill := AttrVal.int (-9999) },
                 attrs := upd dic0.attrs "_FillValue" (AttrVal.int (-9999)) } := by
      rw [upd_ne _ _ _ _ (by decide)]
      exact hcl
    have h6 : (fixNW (upd (renamePipeline f0) "radar_estimated_rain_rate"
        { dic with attrs := upd dic.attrs "_Least_significant_digit" (AttrVal.int 2) }))
          "radar_echo_classification"
        = some { data := { dic0.data with dtype := Dtype.i32, fill := AttrVal.int (-9999) },
                 attrs := upd dic0.attrs "_FillValue" (AttrVal.int (-9999)) } := by
      rw [fixNW_ne _ _ (by decide)]
      exact h5
    have h7 : (normalizeFields (fun x => (f0 x).isSome)
        (fixNW (upd (renamePipeline f0) "radar_estimated_rain_rate"
          { dic with attrs := upd dic.attrs "_Least_significant_digit" (AttrVal.int 2) })))
          "radar_echo_classification"
        = some { data := { dic0.data with dtype := Dtype.i32, fill := AttrVal.int (-9999) },
                 attrs := upd dic0.attrs "_FillValue" (AttrVal.int (-9999)) } := by
      show (klistPr.foldl (normalizeEntry (fun x => (f0 x).isSome)) _)
          "radar_echo_classification" = _
      rw [normAux_ne _ _ _ _ (by decide)]
      exact h6
    refine ⟨{ data := { dic0.data with dtype := Dtype.i32, fill := AttrVal.int (-9999) },
              attrs := del (del (del (upd dic0.attrs "_FillValue" (AttrVal.int (-9999)))
                "grid_mapping") "coordinates") "sampling_ratio" }, ?_, rfl, rfl, ?_⟩
    · rw [← hg, stripBadAttrs_eq, h7]
      rfl
    · show (del (del (del (upd dic0.attrs "_FillValue" (AttrVal.int (-9999)))
          "grid_mapping") "coordinates") "sampling_ratio") "_FillValue"
          = some (AttrVal.int (-9999))
      rw [del_ne _ _ _ (by decide), del_ne _ _ _ (by decide), del_ne _ _ _ (by decide)]
      exact upd_same _ _ _

theorem editFields_dropped (f0 g : Fields) (hok : editFields f0 = Except.ok g) :
    ∀ k ∈ keysDrop, g k = none := by
  intro k hk
  have h1 : k ≠ "reflectivity" := (by decide : ∀ x ∈ keysDrop, x ≠ "reflectivity") k hk
  have h2 : k ≠ "corrected_reflectivity" :=
    (by decide : ∀ x ∈ keysDrop, x ≠ "corrected_reflectivity") k hk
  have h3 : k ≠ "raw_velocity" := (by decide : ∀ x ∈ keysDrop, x ≠ "raw_velocity") k hk
  have h4 : k ≠ "velocity" := (by decide : ∀ x ∈ keysDrop, x ≠ "velocity") k hk
  have h5 : k ≠ "region_dealias_velocity" :=
    (by decide : ∀ x ∈ keysDrop, x ≠ "region_dealias_velocity") k hk
  have h6 : k ≠ "corrected_velocity" :=
    (by decide : ∀ x ∈ keysDrop, x ≠ "corrected_velocity") k hk
  have h7 : k ≠ "radar_echo_classification" :=
    (by decide : ∀ x ∈ keysDrop, x ≠ "radar_echo_classification") k hk
  have h8 : k ≠ "radar_estimated_rain_rate" :=
    (by decide : ∀ x ∈ keysDrop, x ≠ "radar_estimated_rain_rate") k hk
  have h9 : k ≠ "NW" := (by decide : ∀ x ∈ keysDrop, x ≠ "NW") k hk
  unfold editFields at hok
  cases hm : renamePipeline f0 "radar_estimated_rain_rate" with
  | none =>
    rw [hm] at hok
    cases hok
  | some dic =>
    rw [hm] at hok
    dsimp only at hok
    injection hok with hg
    have hD : (dropObsolete f0) k = none := by
      unfold dropObsolete
      rw [if_pos hk]
    have hR : (renameReflectivity (dropObsolete f0)) k = none := by
      rw [renameReflectivity_ne _ _ h1 h2]
      exact hD
    have hV : (renameVelocity (renameReflectivity (dropObsolete f0))) k = none := by
      rw [renameVelocity_ne _ _ h3 h4 h5 h6]
      exact hR
    have hC : (renamePipeline f0) k = none := by
      unfold renamePipeline
      rw [fixClassification_ne _ _ h7]
      exact hV
    have hu : (upd (renamePipeline f0) "radar_estimated_rain_rate"
        { dic with attrs := upd dic.attrs "_Least_significant_digit" (AttrVal.int 2) })
          k = none := by
      rw [upd_ne _ _ _ _ h8]
      exact hC
    have hn : (fixNW (upd (renamePipeline f0) "radar_estimated_rain_rate"
        { dic with attrs := upd dic.attrs "_Least_significant_digit" (AttrVal.int 2) }))
          k = none := by
      rw [fixNW_ne _ _ h9]
      exact hu
    have hz : (normalizeFields (fun x => (f0 x).isSome)
        (fixNW (upd (renamePipeline f0) "radar_estimated_rain_rate"
          { dic with attrs := upd dic.attrs "_Least_significant_digit" (AttrVal.int 2) })))
          k = none :=
      normAux_none _ _ _ _ hn
    rw [← hg, stripBadAttrs_eq, hz]
    rfl

theorem updateData_rainrate_error (outpath : String) (fs : FS) (radar : Volume)
    (h : radar.fields "radar_estimated_rain_rate" = none) :
    updateData outpath fs radar
      = Except.error ("KeyError: radar_estimated_rain_rate",
          mkdirModel (mkdirModel fs (outpath ++ "/" ++ toString radar.startDate.year))
            (outpath ++ "/" ++ toString radar.startDate.year ++ "/" ++
              fmtYMD radar.startDate)) := by
  have hD : (dropObsolete radar.fields) "radar_estimated_rain_rate" = none := by
    unfold dropObsolete
    rw [if_neg (by decide)]
    exact h
  have hR : (renameReflectivity (dropObsolete radar.fields))
      "radar_estimated_rain_rate" = none := by
    rw [renameReflectivity_ne _ _ (by decide) (by decide)]
    exact hD
  have hV : (renameVelocity (renameReflectivity (dropObsolete radar.fields)))
      "radar_estimated_rain_rate" = none := by
    rw [renameVelocity_ne _ _ (by decide) (by decide) (by decide) (by decide)]
    exact hR
  have hC : (renamePipeline radar.fields) "radar_estimated_rain_rate" = none := by
    unfold renamePipeline
    rw [fixClassification_ne _ _ (by decide)]
    exact hV
  have hE : editFields radar.fields
      = Except.error "KeyError: radar_estimated_rain_rate" := by
    unfold editFields
    rw [hC]
  unfold updateData
  rw [hE]

/-! ### Helper lemmas about the driver -/

theorem chunksRec_ne_nil_eq {α : Type} (m : Nat) (l : List α) (h : l ≠ []) :
    chunksRec m l = l.take (m + 1) :: chunksRec m (l.drop (m + 1)) := by
  cases l with
  | nil => exact absurd rfl h
  | cons a as => exact chunksRec_cons m a as

theorem consumeLoop_eq_flatten (l : List Outcome) :
    consumeLoop l = (l.map itemLog).flatten := by
  induction l with
  | nil => rfl
  | cons o rest ih =>
    cases o <;> simp [consumeLoop, itemLog, ih]

theorem consumeLoop_append (xs ys : List Outcome) :
    consumeLoop (xs ++ ys) = consumeLoop xs ++ consumeLoop ys := by
  induction xs with
  | nil => rfl
  | cons o rest ih =>
    cases o <;> simp [consumeLoop, ih]

theorem flatten_map_flatten {α β : Type} (g : α → List β) (L : List (List α)) :
    (L.map (fun ch => (ch.map g).flatten)).flatten = ((L.flatten).map g).flatten := by
  induction L with
  | nil => rfl
  | cons ch rest ih =>
    simp only [List.map_cons, List.flatten_cons, List.map_append, List.flatten_append, ih]

theorem strLe_trans (a b c : String) :
    (decide (a ≤ b)) = true → (decide (b ≤ c)) = true → (decide (a ≤ c)) = true := by
  intro hab hbc
  exact decide_eq_true (le_trans (of_decide_eq_true hab) (of_decide_eq_true hbc))

theorem strLe_total (a b : String) : (decide (a ≤ b) || decide (b ≤ a)) = true := by
  simpa using le_total a b

theorem driverMain_ok (files : List String) (run : String → Outcome)
    (hne : files ≠ []) :
    driverMain files run = Except.ok
      (((chunks (files.mergeSort (fun a b => decide (a ≤ b))) 16).map
        (fun ch => consumeLoop (ch.map run))).flatten) := by
  unfold driverMain
  rw [if_neg]
  intro hc
  rw [List.length_mergeSort] at hc
  exact hne (List.length_eq_zero.mp hc)

/-! ### Helper lemmas about the v2018 variant -/

theorem updateDataset_ret_some (writeNC : FS → String → FS) (fs : FS)
    (radarFile path : String) (dset : Dset) (fs2 : FS) (ret : Option String)
    (vars : List String)
    (hk : updateDataset writeNC fs radarFile path dset = Except.ok (fs2, ret, vars)) :
    ∀ p, ret = some p →
      p = radarFile ∧ (path ++ "/" ++ b1FileName dset.startDate) ∈ fs2.files := by
  intro p hp
  subst hp
  unfold updateDataset at hk
  by_cases hex : (path ++ "/" ++ b1FileName dset.startDate) ∈ fs.files
  · rw [if_pos hex] at hk
    injection hk with h1
    injection h1 with ha hbc
    injection hbc with hb hc
    cases hb
  · rw [if_neg hex] at hk
    cases ha : dset.attrs "product_version" with
    | none =>
      rw [ha] at hk
      cases hk
    | some pv =>
      rw [ha] at hk
      cases hb : dset.attrs "created" with
      | none =>
        rw [hb] at hk
        cases hk
      | some cr =>
        rw [hb] at hk
        dsimp only at hk
        by_cases hw : (path ++ "/" ++ b1FileName dset.startDate)
            ∈ (writeNC fs (path ++ "/" ++ b1FileName dset.startDate)).files
        · rw [if_pos hw] at hk
          injection hk with h1
          injection h1 with hfs hbc
          injection hbc with hret hvars
          injection hret with hpr
          subst hfs
          exact ⟨hpr.symm, hw⟩
        · rw [if_neg hw] at hk
          injection hk with h1
          injection h1 with hfs hbc
          injection hbc with hret hvars
          cases hret

theorem normalizeEntry_absent_id (inB : String → Bool) (f : Fields)
    (e : String × Nat × AttrVal) (h : f e.1 = none) :
    normalizeEntry inB f e = f := by
  unfold normalizeEntry
  by_cases hb : inB e.1
  · rw [if_pos hb, h]
  · rw [if_neg hb]

/-! ### The concrete run -/

theorem cRun_ok : updateData "out" cFS cVol = Except.ok cRun := rfl

/-! ### Claim theorems -/

/-- C1, counterexample: the Transformer `update_data` has no output-exists
check.  On the concrete state `cFS`, where the computed output path `cOut`
already exists, a second run still performs a write of `cOut` (and reloads
the auxiliary file and re-runs every field edit) instead of skipping the
unit of work. -/
theorem c1_counterexample_second_write :
    cOut ∈ cFS.files ∧
    (updateData "out" cFS cVol).toOption.map (fun r => r.writes) = some [cOut] := by
  constructor
  · decide
  · rfl

/-- C3, counterexample: `update_data` does not complete without error on a
Volume lacking `radar_estimated_rain_rate`: the unguarded line 180 raises
`KeyError`, which propagates (after the directories were created). -/
theorem c3_counterexample_missing_rainrate :
    updateData "out" cFS cVolNoRain
      = Except.error ("KeyError: radar_estimated_rain_rate", cFS) := rfl

/-- C1, amended: a successful `update_data` always writes its computed output
path, whether or not it already exists; the output-exists short-circuit
exists only in the v2018 variant `update_dataset`, which, when the output
path already exists, returns `None` with no write, no variable drop and no
further work — though only after the input dataset has been opened. -/
theorem c1_amended_skip_only_v2018 :
    (∀ (outpath : String) (fs : FS) (radar : Volume) (r : UpdateResult),
        updateData outpath fs radar = Except.ok r →
        r.writes = [outFilePath outpath radar.startDate]) ∧
    (∀ (writeNC : FS → String → FS) (fs : FS) (radarFile path : String) (dset : Dset),
        (path ++ "/" ++ b1FileName dset.startDate) ∈ fs.files →
        updateDataset writeNC fs radarFile path dset = Except.ok (fs, none, [])) := by
  constructor
  · intro outpath fs radar r h
    exact (updateData_ok_inv outpath fs radar r h).2.1
  · intro writeNC fs radarFile path dset h
    unfold updateDataset
    rw [if_pos h]

/-- Witness for the C1 amended theorem at concrete inputs. -/
theorem c1_amended_witness :
    cRun.writes = [outFilePath "out" cVol.startDate] ∧
    updateDataset (fun a _ => a) v2018FS "in.nc" "tmp" cDset
      = Except.ok (v2018FS, none, []) :=
  ⟨c1_amended_skip_only_v2018.1 "out" cFS cVol cRun cRun_ok,
   c1_amended_skip_only_v2018.2 (fun a _ => a) v2018FS "in.nc" "tmp" cDset (by decide)⟩

/-- C2: for every entry of the field-edit table `klist_pr` whose field the
input Volume contains, the output field has dtype float32, the fill value and
`_FillValue` of the table entry, and the `_Least_significant_digit` of the
table entry; the classification field, when present in the input, comes out
as int32 with `-9999` sentinel fill; and the normalization loop never
creates a field that was absent when it runs. -/
theorem c2_field_table_normalization (outpath : String) (fs : FS) (radar : Volume)
    (r : UpdateResult) (hok : updateData outpath fs radar = Except.ok r) :
    (∀ k lsd fv, (k, lsd, fv) ∈ klistPr → (radar.fields k).isSome = true →
      (r.outVol.fields k).map (fun d => d.data.dtype) = some Dtype.f32 ∧
      (r.outVol.fields k).map (fun d => d.data.fill) = some fv ∧
      (r.outVol.fields k).bind (fun d => d.attrs "_FillValue") = some fv ∧
      (r.outVol.fields k).bind (fun d => d.attrs "_Least_significant_digit")
        = some (AttrVal.int lsd)) ∧
    ((radar.fields "radar_echo_classification").isSome = true →
      (r.outVol.fields "radar_echo_classification").map (fun d => d.data.dtype)
        = some Dtype.i32 ∧
      (r.outVol.fields "radar_echo_classification").map (fun d => d.data.fill)
        = some (AttrVal.int (-9999)) ∧
      (r.outVol.fields "radar_echo_classification").bind (fun d => d.attrs "_FillValue")
        = some (AttrVal.int (-9999))) ∧
    (∀ (inB : String → Bool) (f : Fields) (k : String),
      f k = none → normalizeFields inB f k = none) := by
  have hEF := (updateData_ok_inv outpath fs radar r hok).1
  refine ⟨?_, ?_, ?_⟩
  · intro k lsd fv hmem hsome
    obtain ⟨d, hd, h1, h2, h3, h4⟩ :=
      editFields_table radar.fields r.outVol.fields hEF k lsd fv hmem hsome
    rw [hd]
    exact ⟨by simp [h1], by simp [h2], by simp [h3], by simp [h4]⟩
  · intro hsome
    obtain ⟨d, hd, h1, h2, h3⟩ :=
      editFields_classification radar.fields r.outVol.fields hEF hsome
    rw [hd]
    exact ⟨by simp [h1], by simp [h2], by simp [h3]⟩
  · intro inB f k h
    exact normAux_none inB klistPr f k h

/-- Witness for C2 at the concrete run: the `D0` entry of the table and the
classification field. -/
theorem c2_witness :
    ((cRun.outVol.fields "D0").map (fun d => d.data.dtype) = some Dtype.f32 ∧
     (cRun.outVol.fields "D0").map (fun d => d.data.fill) = some AttrVal.nan ∧
     (cRun.outVol.fields "D0").bind (fun d => d.attrs "_FillValue") = some AttrVal.nan ∧
     (cRun.outVol.fields "D0").bind (fun d => d.attrs "_Least_significant_digit")
       = some (AttrVal.int 2)) ∧
    ((cRun.outVol.fields "radar_echo_classification").map (fun d => d.data.dtype)
       = some Dtype.i32) ∧
    normalizeFields (fun _ => true) emptyFields "D0" = none := by
  obtain ⟨ha, hb, hc⟩ := c2_field_table_normalization "out" cFS cVol cRun cRun_ok
  exact ⟨ha "D0" 2 AttrVal.nan (by decide) (by decide),
    (hb (by decide)).1, hc (fun _ => true) emptyFields "D0" rfl⟩

/-- C3, amended: every field listed in the normalization table that is absent
from the mapping when the loop runs is skipped without change and without
error, and a field whose conversion fails this way does not stop the loop
from processing the remaining table entries; but `update_data` itself raises
an uncaught `KeyError` (rather than completing) on any Volume lacking
`radar_estimated_rain_rate`, because the precision-hint assignment of
line 180 is not guarded. -/
theorem c3_amended_skip_listed_fields :
    (∀ (inB : String → Bool) (f : Fields) (k : String) (lsd : Nat) (fv : AttrVal),
        (k, lsd, fv) ∈ klistPr → f k = none →
        normalizeFields inB f k = none) ∧
    (∀ (inB : String → Bool) (f : Fields) (e : String × Nat × AttrVal)
        (es : List (String × Nat × AttrVal)), f e.1 = none →
        (e :: es).foldl (normalizeEntry inB) f = es.foldl (normalizeEntry inB) f) ∧
    (∀ (outpath : String) (fs : FS) (radar : Volume),
        radar.fields "radar_estimated_rain_rate" = none →
        updateData outpath fs radar
          = Except.error ("KeyError: radar_estimated_rain_rate",
              mkdirModel (mkdirModel fs (outpath ++ "/" ++ toString radar.startDate.year))
                (outpath ++ "/" ++ toString radar.startDate.year ++ "/" ++
                  fmtYMD radar.startDate))) := by
  refine ⟨?_, ?_, ?_⟩
  · intro inB f k lsd fv hmem h
    exact normAux_none inB klistPr f k h
  · intro inB f e es h
    rw [List.foldl_cons, normalizeEntry_absent_id inB f e h]
  · intro outpath fs radar h
    exact updateData_rainrate_error outpath fs radar h

/-- Witness for the C3 amended theorem at concrete inputs. -/
theorem c3_amended_witness :
    normalizeFields (fun _ => true) emptyFields "D0" = none ∧
    (([("D0", 2, AttrVal.nan)]).foldl (normalizeEntry (fun _ => true)) emptyFields
      = ([] : List (String × Nat × AttrVal)).foldl
          (normalizeEntry (fun _ => true)) emptyFields) ∧
    updateData "out" cFS cVolNoRain
      = Except.error ("KeyError: radar_estimated_rain_rate",
          mkdirModel (mkdirModel cFS ("out" ++ "/" ++ toString cVolNoRain.startDate.year))
            ("out" ++ "/" ++ toString cVolNoRain.startDate.year ++ "/" ++
              fmtYMD cVolNoRain.startDate)) :=
  ⟨c3_amended_skip_listed_fields.1 (fun _ => true) emptyFields "D0" 2 AttrVal.nan
      (by decide) rfl,
   c3_amended_skip_listed_fields.2.1 (fun _ => true) emptyFields ("D0", 2, AttrVal.nan)
      [] rfl,
   c3_amended_skip_listed_fields.2.2 "out" cFS cVolNoRain rfl⟩

/-- C4, counterexample: on the concrete volume `cVol`, which carries
`region_dealias_velocity` but not `raw_velocity`, the failed `raw_velocity`
rename makes the whole velocity `try` block exit, so the
`region_dealias_velocity` to `corrected_velocity` rename is never attempted:
the output still contains `region_dealias_velocity` and gains no
`corrected_velocity`. -/
theorem c4_counterexample_dependent_renames :
    (cVol.fields "region_dealias_velocity").isSome = true ∧
    cVol.fields "raw_velocity" = none ∧
    (updateData "out" cFS cVol).toOption.map
      (fun r => ((r.outVol.fields "region_dealias_velocity").isSome,
                 (r.outVol.fields "corrected_velocity").isSome))
      = some (true, false) := by
  refine ⟨by decide, rfl, by decide⟩

/-- C4, amended: the reflectivity rename block and the velocity rename block
are each independently best-effort — the failure of either leaves the
mapping unchanged and the other block still runs — but the two renames
inside the velocity block are sequential in one `try`: when `raw_velocity`
is absent, the `region_dealias_velocity` to `corrected_velocity` rename is
not attempted. -/
theorem c4_amended_rename_blocks :
    (∀ f : Fields, f "reflectivity" = none → renameReflectivity f = f) ∧
    (∀ f : Fields, f "raw_velocity" = none → renameVelocity f = f) ∧
    (∀ (f : Fields) (d : FieldDict), f "reflectivity" = none →
        f "raw_velocity" = some d →
        renameVelocity (renameReflectivity f) "velocity" = some d) ∧
    (∀ f : Fields, f "raw_velocity" = none →
        renameVelocity f "region_dealias_velocity" = f "region_dealias_velocity" ∧
        renameVelocity f "corrected_velocity" = f "corrected_velocity") := by
  have hrefl : ∀ f : Fields, f "reflectivity" = none → renameReflectivity f = f := by
    intro f h
    unfold renameReflectivity
    rw [h]
  have hraw : ∀ f : Fields, f "raw_velocity" = none → renameVelocity f = f := by
    intro f h
    unfold renameVelocity
    rw [h]
  refine ⟨hrefl, hraw, ?_, ?_⟩
  · intro f d h1 h2
    rw [hrefl f h1]
    unfold renameVelocity
    rw [h2]
    dsimp only
    rw [upd_ne _ _ _ _ (show ("region_dealias_velocity" : String) ≠ "velocity" by decide),
      del_ne _ _ _ (show ("region_dealias_velocity" : String) ≠ "raw_velocity" by decide)]
    cases hg : f "region_dealias_velocity" with
    | none =>
      dsimp only
      exact upd_same _ _ _
    | some dic2 =>
      dsimp only
      rw [del_ne _ _ _ (show ("corrected_velocity" : String) ≠ "region_dealias_velocity" by decide),
        upd_ne _ _ _ _ (show ("corrected_velocity" : String) ≠ "velocity" by decide),
        del_ne _ _ _ (show ("corrected_velocity" : String) ≠ "raw_velocity" by decide)]
      split
      · rw [del_ne _ _ _ (show ("velocity" : String) ≠ "region_dealias_velocity" by decide)]
        exact upd_same _ _ _
      · rw [upd_ne _ _ _ _ (show ("velocity" : String) ≠ "corrected_velocity" by decide),
          del_ne _ _ _ (show ("velocity" : String) ≠ "region_dealias_velocity" by decide)]
        exact upd_same _ _ _
  · intro f h
    rw [hraw f h]
    exact ⟨rfl, rfl⟩

/-- Witness for the C4 amended theorem at concrete inputs. -/
theorem c4_amended_witness :
    renameReflectivity emptyFields = emptyFields ∧
    renameVelocity emptyFields = emptyFields ∧
    renameVelocity (renameReflectivity (upd emptyFields "raw_velocity" baseDict))
      "velocity" = some baseDict ∧
    renameVelocity cFields "corrected_velocity" = cFields "corrected_velocity" :=
  ⟨c4_amended_rename_blocks.1 emptyFields rfl,
   c4_amended_rename_blocks.2.1 emptyFields rfl,
   c4_amended_rename_blocks.2.2.1 (upd emptyFields "raw_velocity" baseDict) baseDict
     rfl rfl,
   (c4_amended_rename_blocks.2.2.2 cFields rfl).2⟩

/-- C5: after a successful `update_data`, none of the four denylisted
obsolete field names is present in the output Volume, whatever the input
contained; no later step re-introduces them. -/
theorem c5_no_obsolete_fields (outpath : String) (fs : FS) (radar : Volume)
    (r : UpdateResult) (hok : updateData outpath fs radar = Except.ok r) :
    ∀ k ∈ keysDrop, r.outVol.fields k = none :=
  editFields_dropped radar.fields r.outVol.fields
    (updateData_ok_inv outpath fs radar r hok).1

/-- Witness for C5 at the concrete run. -/
theorem c5_witness : cRun.outVol.fields "temperature" = none :=
  c5_no_obsolete_fields "out" cFS cVol cRun cRun_ok "temperature" (by decide)

/-- C6: the output path is a pure function of the observation start
timestamp (the seconds component is truncated by the `%H%M` template and the
literal `"00"`), the concrete timestamp 2017-03-04T00:00:06Z resolves to
`<root>/2017/20170304/twp10cpolppi.b1.20170304.000000.nc`, directory
creation tolerates a pre-existing directory and ensures existence, and a
successful `update_data` writes exactly that path with both directories
present afterwards. -/
theorem c6_output_path_template :
    (∀ (root : String) (y mo dy h mi s1 s2 : Nat),
        outFilePath root
            { year := y, month := mo, day := dy, hour := h, minute := mi, second := s1 }
          = outFilePath root
            { year := y, month := mo, day := dy, hour := h, minute := mi, second := s2 }) ∧
    (∀ root : String,
        outFilePath root cDate
          = root ++ "/2017/20170304/twp10cpolppi.b1.20170304.000000.nc") ∧
    (∀ (fs : FS) (d : String), d ∈ fs.dirs → mkdirModel fs d = fs) ∧
    (∀ (fs : FS) (d : String), d ∈ (mkdirModel fs d).dirs) ∧
    (∀ (outpath : String) (fs : FS) (radar : Volume) (r : UpdateResult),
        updateData outpath fs radar = Except.ok r →
        r.writes = [outFilePath outpath radar.startDate] ∧
        (outpath ++ "/" ++ toString radar.startDate.year) ∈ r.fs.dirs ∧
        (outpath ++ "/" ++ toString radar.startDate.year ++ "/" ++ fmtYMD radar.startDate)
          ∈ r.fs.dirs) := by
  refine ⟨?_, ?_, ?_, ?_, ?_⟩
  · intro root y mo dy h mi s1 s2
    rfl
  · intro root
    unfold outFilePath
    simp only [String.append_assoc]
    congr 1
  · intro fs d h
    unfold mkdirModel
    rw [if_pos h]
  · intro fs d
    exact mkdirModel_mem fs d
  · intro outpath fs radar r hok
    obtain ⟨hEF, hw, hfs⟩ := updateData_ok_inv outpath fs radar r hok
    refine ⟨hw, ?_, ?_⟩
    · rw [hfs, writeFile_dirs]
      exact mkdirModel_mono _ _ _ (mkdirModel_mem _ _)
    · rw [hfs, writeFile_dirs]
      exact mkdirModel_mem _ _

/-- Witness for C6 at concrete inputs. -/
theorem c6_witness :
    outFilePath "out" { year := 2017, month := 3, day := 4, hour := 0, minute := 0, second := 1 }
      = outFilePath "out" { year := 2017, month := 3, day := 4, hour := 0, minute := 0, second := 59 } ∧
    outFilePath "out" cDate = "out" ++ "/2017/20170304/twp10cpolppi.b1.20170304.000000.nc" ∧
    mkdirModel cFS "out" = cFS ∧
    "newdir" ∈ (mkdirModel cFS "newdir").dirs ∧
    cRun.writes = [outFilePath "out" cVol.startDate] :=
  ⟨c6_output_path_template.1 "out" 2017 3 4 0 0 1 59,
   c6_output_path_template.2.1 "out",
   c6_output_path_template.2.2.1 cFS "out" (by decide),
   c6_output_path_template.2.2.2.1 cFS "newdir",
   (c6_output_path_template.2.2.2.2 "out" cFS cVol cRun cRun_ok).1⟩

/-- C7: for a non-empty list, `chunks l 16` is a partition of `l` into
contiguous groups in original order: the concatenation restores `l`, every
group but the last has exactly 16 elements, every group is non-empty with at
most 16 elements, and a 17-element list yields exactly two chunks of sizes
16 and 1. -/
theorem c7_chunk_partition (l : List String) (hne : l ≠ []) :
    (chunks l 16).flatten = l ∧
    (∀ c ∈ (chunks l 16).dropLast, c.length = 16) ∧
    (∀ c ∈ chunks l 16, c.length ≤ 16 ∧ c ≠ []) ∧
    (l.length = 17 → (chunks l 16).map (fun c => c.length) = [16, 1]) := by
  rw [chunks16_eq]
  refine ⟨chunksRec_flatten 15 l, chunksRec_dropLast_length 15 l,
    chunksRec_mem_length 15 l, ?_⟩
  intro h17
  have hd1 : (l.drop 16).length = 1 := by
    rw [List.length_drop, h17]
  have hdne : l.drop 16 ≠ [] := by
    intro hc
    rw [hc] at hd1
    cases hd1
  rw [chunksRec_ne_nil_eq 15 l hne, chunksRec_ne_nil_eq 15 (l.drop 16) hdne]
  have hd2 : (l.drop 16).drop 16 = [] := by
    have : ((l.drop 16).drop 16).length = 0 := by
      rw [List.length_drop, hd1]
    exact List.length_eq_zero.mp this
  rw [hd2, chunksRec_nil]
  simp [List.length_take, h17, hd1]

/-- Witness for C7 on a concrete 17-element list. -/
theorem c7_witness :
    (chunks cL17 16).flatten = cL17 ∧
    (∀ c ∈ (chunks cL17 16).dropLast, c.length = 16) ∧
    (∀ c ∈ chunks cL17 16, c.length ≤ 16 ∧ c ≠ []) ∧
    (cL17.length = 17 → (chunks cL17 16).map (fun c => c.length) = [16, 1]) :=
  c7_chunk_partition cL17 (by decide)

/-- C8: on an empty enumeration the driver raises the no-input error before
any chunking or Transformer submission; on a non-empty enumeration the file
list is first sorted (a lexicographically ordered permutation of the input)
and the driver processes exactly the chunks of the sorted list. -/
theorem c8_empty_enumeration_and_sorting :
    (∀ run : String → Outcome, driverMain [] run = Except.error "No file found") ∧
    (∀ (files : List String) (run : String → Outcome), files ≠ [] →
      (files.mergeSort (fun a b => decide (a ≤ b))).Perm files ∧
      (files.mergeSort (fun a b => decide (a ≤ b))).Pairwise (fun a b => a ≤ b) ∧
      driverMain files run = Except.ok
        (((chunks (files.mergeSort (fun a b => decide (a ≤ b))) 16).map
          (fun ch => consumeLoop (ch.map run))).flatten)) := by
  constructor
  · intro run
    simp [driverMain]
  · intro files run hne
    refine ⟨List.mergeSort_perm files _, ?_, driverMain_ok files run hne⟩
    exact (List.sorted_mergeSort strLe_trans strLe_total files).imp
      (fun h => of_decide_eq_true h)

/-- Witness for C8 at concrete inputs. -/
theorem c8_witness :
    driverMain [] (fun _ => Outcome.ok) = Except.error "No file found" ∧
    ((["b", "a"].mergeSort (fun a b => decide (a ≤ b))).Perm ["b", "a"] ∧
     (["b", "a"].mergeSort (fun a b => decide (a ≤ b))).Pairwise (fun a b => a ≤ b) ∧
     driverMain ["b", "a"] (fun _ => Outcome.ok) = Except.ok
       (((chunks (["b", "a"].mergeSort (fun a b => decide (a ≤ b))) 16).map
         (fun ch => consumeLoop (ch.map (fun _ => Outcome.ok)))).flatten)) :=
  ⟨c8_empty_enumeration_and_sorting.1 (fun _ => Outcome.ok),
   c8_empty_enumeration_and_sorting.2 ["b", "a"] (fun _ => Outcome.ok) (by decide)⟩

/-- C9: the driver consumes a result for every submitted item: its output is
exactly the concatenation, over all files in sorted submission order, of the
per-item logs — a success contributes nothing (discarded return value), a
timeout, an abnormal worker exit or any other failure contributes its log
line and the loop continues, so no item failure aborts the batch, skips a
sibling, or prevents a later chunk. -/
theorem c9_result_loop_continues (files : List String) (run : String → Outcome)
    (hne : files ≠ []) :
    driverMain files run = Except.ok
      (((files.mergeSort (fun a b => decide (a ≤ b))).map
        (fun f => itemLog (run f))).flatten) ∧
    (∀ rest : List Outcome, consumeLoop (Outcome.ok :: rest) = consumeLoop rest) ∧
    (∀ (secs : Nat) (rest : List Outcome),
        consumeLoop (Outcome.timedOut secs :: rest)
          = ("function took longer than " ++ toString secs ++ " seconds")
              :: consumeLoop rest) ∧
    (∀ (c : Int) (rest : List Outcome),
        consumeLoop (Outcome.expired c :: rest)
          = ("Exit code: " ++ toString c) :: consumeLoop rest) ∧
    (∀ (m : String) (rest : List Outcome),
        consumeLoop (Outcome.failed m :: rest)
          = ("function raised " ++ m) :: consumeLoop rest) ∧
    (∀ xs ys : List Outcome,
        consumeLoop (xs ++ ys) = consumeLoop xs ++ consumeLoop ys) := by
  refine ⟨?_, fun rest => rfl, fun secs rest => rfl, fun c rest => rfl,
    fun m rest => rfl, consumeLoop_append⟩
  rw [driverMain_ok files run hne]
  congr 1
  simp only [consumeLoop_eq_flatten, List.map_map]
  rw [flatten_map_flatten (itemLog ∘ run)
    (chunks (files.mergeSort (fun a b => decide (a ≤ b))) 16)]
  rw [chunks16_eq, chunksRec_flatten]
  rfl

/-- Witness for C9 at concrete inputs, with one timed-out item. -/
theorem c9_witness :
    driverMain ["a", "b"] (fun f => if f = "a" then Outcome.timedOut 60 else Outcome.ok)
      = Except.ok
        (((["a", "b"].mergeSort (fun a b => decide (a ≤ b))).map
          (fun f => itemLog
            ((fun f => if f = "a" then Outcome.timedOut 60 else Outcome.ok) f))).flatten) ∧
    consumeLoop [Outcome.timedOut 60, Outcome.ok]
      = ("function took longer than " ++ toString 60 ++ " seconds") :: consumeLoop [Outcome.ok] :=
  ⟨(c9_result_loop_continues ["a", "b"]
      (fun f => if f = "a" then Outcome.timedOut 60 else Outcome.ok) (by decide)).1,
   (c9_result_loop_continues ["a", "b"]
      (fun f => if f = "a" then Outcome.timedOut 60 else Outcome.ok) (by decide)).2.2.1
      60 [Outcome.ok]⟩

/-- C10: `update_dataset` returns `None` when the output path already exists
(no write) and when the written output cannot be observed on disk afterwards,
and returns the input path only when the output is observed; `remove` skips
`None` entries, deletes the returned paths, and tolerates an already-missing
file; hence along any run an extracted input file is removed only when its
converted output file exists. -/
theorem c10_v2018_remove_only_converted (writeNC : FS → String → FS) (fs : FS)
    (radarFile path : String) (dset : Dset) :
    ((path ++ "/" ++ b1FileName dset.startDate) ∈ fs.files →
        updateDataset writeNC fs radarFile path dset = Except.ok (fs, none, [])) ∧
    (∀ (fs2 : FS) (ret : Option String) (vars : List String),
        updateDataset writeNC fs radarFile path dset = Except.ok (fs2, ret, vars) →
        ∀ p, ret = some p →
          p = radarFile ∧ (path ++ "/" ++ b1FileName dset.startDate) ∈ fs2.files) ∧
    ((path ++ "/" ++ b1FileName dset.startDate) ∉ fs.files →
        (dset.attrs "product_version").isSome = true →
        (dset.attrs "created").isSome = true →
        (path ++ "/" ++ b1FileName dset.startDate)
            ∉ (writeNC fs (path ++ "/" ++ b1FileName dset.startDate)).files →
        updateDataset writeNC fs radarFile path dset
          = Except.ok (writeNC fs (path ++ "/" ++ b1FileName dset.startDate), none,
              dset.varNames.filter (fun k => k ∈ goodKeys))) ∧
    (∀ fsx : FS, removeFiles fsx [none] = fsx) ∧
    (∀ (fsx : FS) (p : String),
        removeFiles fsx [some p] = { fsx with files := fsx.files.erase p }) ∧
    (∀ (fsx : FS) (p : String), p ∉ fsx.files → removeFiles fsx [some p] = fsx) ∧
    (∀ (fs2 : FS) (ret : Option String) (vars : List String),
        updateDataset writeNC fs radarFile path dset = Except.ok (fs2, ret, vars) →
        radarFile ∈ fs2.files → radarFile ∉ (removeFiles fs2 [ret]).files →
        (path ++ "/" ++ b1FileName dset.startDate) ∈ fs2.files) := by
  refine ⟨?_, ?_, ?_, ?_, ?_, ?_, ?_⟩
  · intro h
    unfold updateDataset
    rw [if_pos h]
  · intro fs2 ret vars hk
    exact updateDataset_ret_some writeNC fs radarFile path dset fs2 ret vars hk
  · intro hex hpv hcr hw
    obtain ⟨pv, hb⟩ := Option.isSome_iff_exists.mp hpv
    obtain ⟨cr, hc⟩ := Option.isSome_iff_exists.mp hcr
    unfold updateDataset
    rw [if_neg hex, hb, hc]
    dsimp only
    rw [if_neg hw]
  · intro fsx
    rfl
  · intro fsx p
    rfl
  · intro fsx p hp
    show { fsx with files := fsx.files.erase p } = fsx
    rw [List.erase_of_not_mem hp]
  · intro fs2 ret vars hk hin hout
    cases ret with
    | none => exact absurd hin hout
    | some p =>
      exact (updateDataset_ret_some writeNC fs radarFile path dset fs2 (some p) vars hk
        p rfl).2

/-- Witness for C10 at concrete inputs. -/
theorem c10_witness :
    updateDataset (fun a _ => a) v2018FS "in.nc" "tmp" cDset
      = Except.ok (v2018FS, none, []) ∧
    removeFiles v2018FS [none] = v2018FS ∧
    removeFiles v2018FS [some "zzz"] = v2018FS ∧
    removeFiles v2018FS [some "x"] = { v2018FS with files := v2018FS.files.erase "x" } :=
  ⟨(c10_v2018_remove_only_converted (fun a _ => a) v2018FS "in.nc" "tmp" cDset).1
      (by decide),
   (c10_v2018_remove_only_converted (fun a _ => a) v2018FS "in.nc" "tmp" cDset).2.2.2.1
      v2018FS,
   (c10_v2018_remove_only_converted (fun a _ => a) v2018FS "in.nc" "tmp" cDset).2.2.2.2.2.1
      v2018FS "zzz" (by decide),
   (c10_v2018_remove_only_converted (fun a _ => a) v2018FS "in.nc" "tmp" cDset).2.2.2.2.1
      v2018FS "x"⟩

end Cpol
